import Mathlib

/-!
Verification of the landslide-risk scoring and forecasting engine of the LS
mobile dashboard. The definitions below are a shallow embedding of the
TypeScript source (`src/app/(tabs)/index.tsx`, mirrored in `src/app/index.tsx`):
JavaScript numbers are modelled as rationals (`ℚ`), `Math.round` as Mathlib's
`round` (both round half towards positive infinity), nullable values as
`Option`, and the reactive effects that update mutable refs as explicit
state-passing step functions.
-/

namespace LS

/-- Embeds `const clamp = (value, min, max) => Math.min(max, Math.max(min, value))`. -/
def clamp (value lo hi : ℚ) : ℚ := min hi (max lo value)

/-- Embeds `const riskFromRange = (value, startRisk, danger) =>
clamp((value - startRisk) / (danger - startRisk), 0, 1)`. -/
def riskFromRange (value startRisk danger : ℚ) : ℚ :=
  clamp ((value - startRisk) / (danger - startRisk)) 0 1

/-- The four `(startRisk, dangerThreshold)` pairs used in `riskLevels`:
soilMoisture (60,100), rainfall24h (80,200), slopeAngle (25,45),
groundVibration (4,6.5). -/
def factorRanges : List (ℚ × ℚ) := [(60, 100), (80, 200), (25, 45), (4, 6.5)]

/-- The five risk bands returned by `describeBand` (type `RiskBandKey`). -/
inductive RiskBandKey where
  | stable | caution | elevated | high | danger
  deriving DecidableEq, Repr

/-- Embeds `describeBand`: top-down threshold tests at 0.8, 0.65, 0.45, 0.28. -/
def describeBand (score : ℚ) : RiskBandKey :=
  if 0.8 ≤ score then .danger
  else if 0.65 ≤ score then .high
  else if 0.45 ≤ score then .elevated
  else if 0.28 ≤ score then .caution
  else .stable

/-- Embeds `type SensorSnapshot` (four numeric readings). -/
structure SensorSnapshot where
  soilMoisture : ℚ
  slopeAngle : ℚ
  rainfall24h : ℚ
  groundVibration : ℚ
  deriving DecidableEq, Repr

/-- The per-factor normalized risk levels computed by the `riskLevels` memo. -/
structure RiskLevels where
  soilMoisture : ℚ
  slopeAngle : ℚ
  rainfall24h : ℚ
  groundVibration : ℚ
  deriving DecidableEq, Repr

/-- Embeds the `riskLevels` memo: each raw reading is normalized with its
factor-specific range. -/
def riskLevels (s : SensorSnapshot) : RiskLevels where
  soilMoisture := riskFromRange s.soilMoisture 60 100
  slopeAngle := riskFromRange s.slopeAngle 25 45
  rainfall24h := riskFromRange s.rainfall24h 80 200
  groundVibration := riskFromRange s.groundVibration 4 6.5

/-- The four factor keys (`keyof SensorSnapshot`). -/
inductive Factor where
  | soilMoisture | slopeAngle | rainfall24h | groundVibration
  deriving DecidableEq, Repr

/-- The canonical key iteration order shared by `Object.entries(WEIGHTS)` and
`Object.keys(metricConfig)`: insertion order of the object literals. -/
def factorOrder : List Factor :=
  [.soilMoisture, .slopeAngle, .rainfall24h, .groundVibration]

/-- Embeds the `WEIGHTS` record. -/
def WEIGHTS : Factor → ℚ
  | .soilMoisture => 0.32
  | .slopeAngle => 0.31
  | .rainfall24h => 0.22
  | .groundVibration => 0.15

/-- Field lookup `riskLevels[key]`. -/
def levelOf (lv : RiskLevels) : Factor → ℚ
  | .soilMoisture => lv.soilMoisture
  | .slopeAngle => lv.slopeAngle
  | .rainfall24h => lv.rainfall24h
  | .groundVibration => lv.groundVibration

/-- Embeds the `weightedScore` memo:
`Object.entries(WEIGHTS).reduce((total, [key, weight]) => total + riskLevels[key] * weight, 0)`. -/
def weightedScore (lv : RiskLevels) : ℚ :=
  factorOrder.foldl (fun total key => total + levelOf lv key * WEIGHTS key) 0

/-- Embeds the `probability` memo: `clamp(0.18 + weightedScore * 0.92, 0, 1)`. -/
def probability (ws : ℚ) : ℚ := clamp (0.18 + ws * 0.92) 0 1

/-- One entry of the `forecasts` memo. -/
structure Forecast where
  hours : ℚ
  projected : ℚ
  band : RiskBandKey
  deriving DecidableEq, Repr

/-- Embeds `const FORECAST_HOURS = [1, 3, 6]`. -/
def FORECAST_HOURS : List ℚ := [1, 3, 6]

/-- Embeds the `forecasts` memo: for each horizon, project the probability
forward with the three pressure terms and classify the projected value. -/
def forecasts (lv : RiskLevels) (p : ℚ) : List Forecast :=
  FORECAST_HOURS.map fun hours =>
    let rainfallPressure := lv.rainfall24h * 0.18
    let slopePressure := lv.slopeAngle * 0.12
    let saturationPush := lv.soilMoisture * 0.1
    let projected := clamp (p + hours / 6 * (rainfallPressure + slopePressure + saturationPush)) 0 1
    ⟨hours, projected, describeBand projected⟩

/- Basic facts about `clamp`. -/

theorem clamp_nonneg (v hi : ℚ) (h : 0 ≤ hi) : 0 ≤ clamp v 0 hi :=
  le_min h (le_max_left 0 v)

theorem clamp_le_hi (v lo hi : ℚ) : clamp v lo hi ≤ hi :=
  min_le_left hi _

theorem lo_le_clamp (v lo hi : ℚ) (h : lo ≤ hi) : lo ≤ clamp v lo hi :=
  le_min h (le_max_left lo v)

theorem clamp_mono (v w lo hi : ℚ) (h : v ≤ w) : clamp v lo hi ≤ clamp w lo hi :=
  min_le_min le_rfl (max_le_max le_rfl h)

theorem riskFromRange_nonneg (v s d : ℚ) : 0 ≤ riskFromRange v s d :=
  clamp_nonneg _ _ (by norm_num)

theorem riskFromRange_le_one (v s d : ℚ) : riskFromRange v s d ≤ 1 :=
  clamp_le_hi _ _ _

theorem riskFromRange_mono (v v' s d : ℚ) (hsd : s < d) (hv : v ≤ v') :
    riskFromRange v s d ≤ riskFromRange v' s d := by
  apply clamp_mono
  apply div_le_div_of_nonneg_right _ (by linarith)
  linarith

/-- C1: for each of the four factor ranges, the normalizer is literally
`clamp((rawValue - startRisk) / (dangerThreshold - startRisk), 0, 1)`, its
result lies in `[0, 1]` for every real input (out-of-range inputs clamp
silently, no error path), and it is monotonically non-decreasing in the
raw value. -/
theorem c1_normalizer_clamped_monotone (r : ℚ × ℚ) (hr : r ∈ factorRanges) (v v' : ℚ) :
    riskFromRange v r.1 r.2 = clamp ((v - r.1) / (r.2 - r.1)) 0 1 ∧
    0 ≤ riskFromRange v r.1 r.2 ∧
    riskFromRange v r.1 r.2 ≤ 1 ∧
    (v ≤ v' → riskFromRange v r.1 r.2 ≤ riskFromRange v' r.1 r.2) := by
  have hlt : r.1 < r.2 := by
    fin_cases hr <;> norm_num
  exact ⟨rfl, riskFromRange_nonneg _ _ _, riskFromRange_le_one _ _ _,
    riskFromRange_mono v v' r.1 r.2 hlt⟩

/-- Witness for C1 at the soilMoisture range (60, 100) with inputs 70 ≤ 80. -/
theorem c1_normalizer_clamped_monotone_witness :
    0 ≤ riskFromRange 70 60 100 ∧ riskFromRange 70 60 100 ≤ riskFromRange 80 60 100 :=
  ⟨(c1_normalizer_clamped_monotone (60, 100) (by norm_num [factorRanges]) 70 80).2.1,
   (c1_normalizer_clamped_monotone (60, 100) (by norm_num [factorRanges]) 70 80).2.2.2
     (by norm_num)⟩

theorem describeBand_eq_danger_iff (p : ℚ) : describeBand p = .danger ↔ 0.8 ≤ p := by
  unfold describeBand
  split_ifs <;> simp_all <;> (try push_neg) <;> (try constructor) <;> (try intro hh) <;> linarith

theorem describeBand_eq_high_iff (p : ℚ) : describeBand p = .high ↔ 0.65 ≤ p ∧ p < 0.8 := by
  unfold describeBand
  split_ifs <;> simp_all <;> (try push_neg) <;> (try constructor) <;> (try intro hh) <;> linarith

theorem describeBand_eq_elevated_iff (p : ℚ) :
    describeBand p = .elevated ↔ 0.45 ≤ p ∧ p < 0.65 := by
  unfold describeBand
  split_ifs <;> simp_all <;> (try push_neg) <;> (try constructor) <;> (try intro hh) <;> linarith

theorem describeBand_eq_caution_iff (p : ℚ) :
    describeBand p = .caution ↔ 0.28 ≤ p ∧ p < 0.45 := by
  unfold describeBand
  split_ifs <;> simp_all <;> (try push_neg) <;> (try constructor) <;> (try intro hh) <;> linarith

theorem describeBand_eq_stable_iff (p : ℚ) : describeBand p = .stable ↔ p < 0.28 := by
  unfold describeBand
  split_ifs <;> simp_all <;> (try push_neg) <;> (try constructor) <;> (try intro hh) <;> linarith

/-- C3: `describeBand` is a total deterministic step function: Danger iff
p ≥ 0.80, High iff 0.65 ≤ p < 0.80, Elevated iff 0.45 ≤ p < 0.65, Caution iff
0.28 ≤ p < 0.45, Stable otherwise; exact threshold inputs take the higher band. -/
theorem c3_band_step_function (p : ℚ) :
    (describeBand p = .danger ↔ 0.8 ≤ p) ∧
    (describeBand p = .high ↔ 0.65 ≤ p ∧ p < 0.8) ∧
    (describeBand p = .elevated ↔ 0.45 ≤ p ∧ p < 0.65) ∧
    (describeBand p = .caution ↔ 0.28 ≤ p ∧ p < 0.45) ∧
    (describeBand p = .stable ↔ p < 0.28) :=
  ⟨describeBand_eq_danger_iff p, describeBand_eq_high_iff p, describeBand_eq_elevated_iff p,
   describeBand_eq_caution_iff p, describeBand_eq_stable_iff p⟩

/-- C2 counterexample: on the snapshot {soilMoisture: 80, slopeAngle: 35,
rainfall24h: 150, groundVibration: 5} the code yields weightedScore 151/300
(≈ 0.503, not ≈ 0.488 as claimed) and probability 4823/7500 (≈ 0.643, not
≈ 0.629 as claimed); both are off by more than 0.01. -/
theorem c2_scenario_claim_false :
    weightedScore (riskLevels ⟨80, 35, 150, 5⟩) = 151 / 300 ∧
    1 / 100 < |weightedScore (riskLevels ⟨80, 35, 150, 5⟩) - 0.488| ∧
    probability (weightedScore (riskLevels ⟨80, 35, 150, 5⟩)) = 4823 / 7500 ∧
    1 / 100 < |probability (weightedScore (riskLevels ⟨80, 35, 150, 5⟩)) - 0.629| := by
  norm_num [weightedScore, factorOrder, levelOf, WEIGHTS, riskLevels, riskFromRange,
    probability, clamp, min_def, max_def, abs]

/-- C2 amended: on the snapshot {soilMoisture: 80, slopeAngle: 35,
rainfall24h: 150, groundVibration: 5} with the configured weights, the
pipeline yields riskLevels exactly (0.5, 0.5, 7/12 ≈ 0.583, 0.4),
weightedScore 151/300 ≈ 0.503, probability 4823/7500 ≈ 0.643, and still
the band Elevated. -/
theorem c2_scenario_pipeline :
    riskLevels ⟨80, 35, 150, 5⟩ = ⟨1 / 2, 1 / 2, 7 / 12, 2 / 5⟩ ∧
    weightedScore (riskLevels ⟨80, 35, 150, 5⟩) = 151 / 300 ∧
    |weightedScore (riskLevels ⟨80, 35, 150, 5⟩) - 0.503| < 1 / 1000 ∧
    probability (weightedScore (riskLevels ⟨80, 35, 150, 5⟩)) = 4823 / 7500 ∧
    |probability (weightedScore (riskLevels ⟨80, 35, 150, 5⟩)) - 0.643| < 1 / 1000 ∧
    describeBand (probability (weightedScore (riskLevels ⟨80, 35, 150, 5⟩))) = .elevated := by
  norm_num [weightedScore, factorOrder, levelOf, WEIGHTS, riskLevels, riskFromRange,
    probability, describeBand, clamp, min_def, max_def, abs, SensorSnapshot.mk.injEq,
    RiskLevels.mk.injEq]

/-- The projection formula stated by the spec:
`clamp(p + (h/6) * (rainfallLevel*0.18 + slopeLevel*0.12 + soilLevel*0.10), 0, 1)`. -/
def specProjected (lv : RiskLevels) (p h : ℚ) : ℚ :=
  clamp (p + h / 6 * (lv.rainfall24h * 0.18 + lv.slopeAngle * 0.12 + lv.soilMoisture * 0.1)) 0 1

/-- C4: for risk levels in [0,1], each horizon h in (1, 3, 6) is projected to
`clamp(p + (h/6)*(rainfallLevel*0.18 + slopeLevel*0.12 + soilLevel*0.10), 0, 1)`
with its band classified from the projected value; the projections are
monotonically non-decreasing in h, the horizon-6 projection equals
`clamp(p + pressure, 0, 1)`, and every projection lies in [0,1]. -/
theorem c4_forecast_projection (lv : RiskLevels) (p : ℚ)
    (hrain : 0 ≤ lv.rainfall24h) (hslope : 0 ≤ lv.slopeAngle) (hsoil : 0 ≤ lv.soilMoisture) :
    forecasts lv p =
      [⟨1, specProjected lv p 1, describeBand (specProjected lv p 1)⟩,
       ⟨3, specProjected lv p 3, describeBand (specProjected lv p 3)⟩,
       ⟨6, specProjected lv p 6, describeBand (specProjected lv p 6)⟩] ∧
    specProjected lv p 1 ≤ specProjected lv p 3 ∧
    specProjected lv p 3 ≤ specProjected lv p 6 ∧
    specProjected lv p 6 =
      clamp (p + (lv.rainfall24h * 0.18 + lv.slopeAngle * 0.12 + lv.soilMoisture * 0.1)) 0 1 ∧
    ∀ fc ∈ forecasts lv p, 0 ≤ fc.projected ∧ fc.projected ≤ 1 := by
  have hP : 0 ≤ lv.rainfall24h * 0.18 + lv.slopeAngle * 0.12 + lv.soilMoisture * 0.1 :=
    add_nonneg (add_nonneg (mul_nonneg hrain (by norm_num)) (mul_nonneg hslope (by norm_num)))
      (mul_nonneg hsoil (by norm_num))
  refine ⟨rfl, ?_, ?_, ?_, ?_⟩
  · exact clamp_mono _ _ _ _ (by linarith)
  · exact clamp_mono _ _ _ _ (by linarith)
  · unfold specProjected
    ring_nf
  · intro fc hfc
    obtain ⟨h, -, rfl⟩ := List.mem_map.1 hfc
    exact ⟨clamp_nonneg _ _ (by norm_num), clamp_le_hi _ _ _⟩

/-- Witness for C4 at the risk levels of the spec's concrete scenario and
current probability 1/2. -/
theorem c4_forecast_projection_witness :
    specProjected ⟨1 / 2, 1 / 2, 7 / 12, 2 / 5⟩ (1 / 2) 1 ≤
      specProjected ⟨1 / 2, 1 / 2, 7 / 12, 2 / 5⟩ (1 / 2) 3 ∧
    specProjected ⟨1 / 2, 1 / 2, 7 / 12, 2 / 5⟩ (1 / 2) 3 ≤
      specProjected ⟨1 / 2, 1 / 2, 7 / 12, 2 / 5⟩ (1 / 2) 6 :=
  ⟨(c4_forecast_projection ⟨1 / 2, 1 / 2, 7 / 12, 2 / 5⟩ (1 / 2) (by norm_num) (by norm_num)
      (by norm_num)).2.1,
   (c4_forecast_projection ⟨1 / 2, 1 / 2, 7 / 12, 2 / 5⟩ (1 / 2) (by norm_num) (by norm_num)
      (by norm_num)).2.2.1⟩

/-- One accelerometer reading recorded by `recordAccelerometer`. -/
structure GroundSample where
  ax : ℚ
  ay : ℚ
  az : ℚ
  deriving DecidableEq, Repr

/-- The per-sample term of the `groundTrustScore` reduce:
`Math.abs(sample.ax) + Math.abs(sample.ay) + Math.abs(sample.az)`. -/
def sampleMagnitude (s : GroundSample) : ℚ := |s.ax| + |s.ay| + |s.az|

/-- The `avgMagnitude` local of the `groundTrustScore` memo: the reduce sum
of the per-sample magnitudes divided by the sample count. -/
def avgMagnitude (xs : List GroundSample) : ℚ :=
  xs.foldl (fun sum s => sum + sampleMagnitude s) 0 / xs.length

/-- Embeds the `groundTrustScore` memo: `null` when the buffer is empty,
otherwise `Math.round(clamp(100 - avgMagnitude * 40, 0, 100))`. -/
def groundTrustScore (xs : List GroundSample) : Option ℤ :=
  if xs.length = 0 then none
  else some (round (clamp (100 - avgMagnitude xs * 40) 0 100))

/-- Embeds the `sensorConfidence` expression:
`Math.round(clamp(60 + 15*(1 - vibration) + 10*(1 - rainfall*0.6) + 15*(1 - soil*0.4), 40, 100))`. -/
def sensorConfidence (lv : RiskLevels) : ℤ :=
  round (clamp
    (60 + 15 * (1 - lv.groundVibration) + 10 * (1 - lv.rainfall24h * 0.6)
      + 15 * (1 - lv.soilMoisture * 0.4)) 40 100)

theorem round_mono_rat {x y : ℚ} (h : x ≤ y) : round x ≤ round y := by
  rw [round_eq, round_eq]
  exact Int.floor_le_floor (by linarith)

/-- C5: the trust estimator returns none on the empty buffer and otherwise
`round(clamp(100 - avgMagnitude*40, 0, 100))`, an integer in [0,100] that is
monotonically non-increasing in the average magnitude; 10 samples of (0,0,0)
yield 100 and 10 samples of (1,1,1) yield 0. -/
theorem c5_ground_trust_estimator (xs ys : List GroundSample) (hx : xs ≠ []) (hy : ys ≠ []) :
    groundTrustScore [] = none ∧
    groundTrustScore xs = some (round (clamp (100 - avgMagnitude xs * 40) 0 100)) ∧
    (∀ t, groundTrustScore xs = some t → 0 ≤ t ∧ t ≤ 100) ∧
    (avgMagnitude xs ≤ avgMagnitude ys →
      ∀ t u, groundTrustScore xs = some t → groundTrustScore ys = some u → u ≤ t) ∧
    groundTrustScore (List.replicate 10 ⟨0, 0, 0⟩) = some 100 ∧
    groundTrustScore (List.replicate 10 ⟨1, 1, 1⟩) = some 0 := by
  have hxlen : ¬xs.length = 0 := by simpa [List.length_eq_zero] using hx
  have hylen : ¬ys.length = 0 := by simpa [List.length_eq_zero] using hy
  refine ⟨rfl, by simp [groundTrustScore, hxlen], ?_, ?_, ?_, ?_⟩
  · intro t ht
    rw [groundTrustScore, if_neg hxlen, Option.some.injEq] at ht
    subst ht
    constructor
    · simpa using round_mono_rat (lo_le_clamp (100 - avgMagnitude xs * 40) 0 100 (by norm_num))
    · simpa using round_mono_rat (clamp_le_hi (100 - avgMagnitude xs * 40) 0 100)
  · intro hle t u ht hu
    rw [groundTrustScore, if_neg hxlen, Option.some.injEq] at ht
    rw [groundTrustScore, if_neg hylen, Option.some.injEq] at hu
    subst ht; subst hu
    apply round_mono_rat
    apply clamp_mono
    have := mul_le_mul_of_nonneg_right hle (by norm_num : (0:ℚ) ≤ 40)
    linarith
  · norm_num [groundTrustScore, avgMagnitude, sampleMagnitude, List.replicate, clamp,
      min_def, max_def]
  · norm_num [groundTrustScore, avgMagnitude, sampleMagnitude, List.replicate, clamp,
      min_def, max_def]

/-- Witness for C5 with the one-element buffers [(0,0,0)] and [(1,1,1)]. -/
theorem c5_ground_trust_estimator_witness :
    groundTrustScore [] = none ∧ groundTrustScore (List.replicate 10 ⟨0, 0, 0⟩) = some 100 :=
  ⟨(c5_ground_trust_estimator [⟨0, 0, 0⟩] [⟨1, 1, 1⟩] (by decide) (by decide)).1,
   (c5_ground_trust_estimator [⟨0, 0, 0⟩] [⟨1, 1, 1⟩] (by decide) (by decide)).2.2.2.2.1⟩

/-- C10: the displayed sensor confidence equals
`round(clamp(60 + 15*(1-vibrationLevel) + 10*(1-rainfallLevel*0.6) + 15*(1-soilLevel*0.4), 40, 100))`
for every snapshot, hence is always an integer in [40,100]. -/
theorem c10_sensor_confidence_bounds (s : SensorSnapshot) :
    sensorConfidence (riskLevels s) =
      round (clamp
        (60 + 15 * (1 - (riskLevels s).groundVibration)
          + 10 * (1 - (riskLevels s).rainfall24h * 0.6)
          + 15 * (1 - (riskLevels s).soilMoisture * 0.4)) 40 100) ∧
    40 ≤ sensorConfidence (riskLevels s) ∧ sensorConfidence (riskLevels s) ≤ 100 := by
  refine ⟨rfl, ?_, ?_⟩
  · simpa using round_mono_rat (lo_le_clamp
      (60 + 15 * (1 - (riskLevels s).groundVibration)
        + 10 * (1 - (riskLevels s).rainfall24h * 0.6)
        + 15 * (1 - (riskLevels s).soilMoisture * 0.4)) 40 100 (by norm_num))
  · simpa using round_mono_rat (clamp_le_hi
      (60 + 15 * (1 - (riskLevels s).groundVibration)
        + 10 * (1 - (riskLevels s).rainfall24h * 0.6)
        + 15 * (1 - (riskLevels s).soilMoisture * 0.4)) 40 100)

/-- The per-factor contribution `riskLevels[key] * WEIGHTS[key]` used by the
`dominantFactor` memo. -/
def factorScore (lv : RiskLevels) (f : Factor) : ℚ := levelOf lv f * WEIGHTS f

/-- The reducer body of the `dominantFactor` memo: `if (!top) return current;
return currentScore > topScore ? current : top`. -/
def pickTop (lv : RiskLevels) (top : Option Factor) (current : Factor) : Option Factor :=
  match top with
  | none => some current
  | some t => if factorScore lv t < factorScore lv current then some current else some t

/-- Embeds the `dominantFactor` memo: `factors.reduce(..., null)` over the
canonical factor order. -/
def dominantFactor (lv : RiskLevels) : Option Factor :=
  factorOrder.foldl (pickTop lv) none

/-- Position of a factor in the canonical iteration order. -/
def factorIdx : Factor → ℕ
  | .soilMoisture => 0
  | .slopeAngle => 1
  | .rainfall24h => 2
  | .groundVibration => 3

/-- C6: the dominant factor selector always returns a factor maximizing
`level * weight`, and on ties the factor earliest in the canonical order
(soilMoisture, slopeAngle, rainfall24h, groundVibration) wins; a dominant
factor is always defined. -/
theorem c6_dominant_factor_first_max (lv : RiskLevels) :
    ∃ f, dominantFactor lv = some f ∧
      (∀ g, factorScore lv g ≤ factorScore lv f) ∧
      (∀ g, factorScore lv g = factorScore lv f → factorIdx f ≤ factorIdx g) := by
  unfold dominantFactor factorOrder pickTop
  simp only [List.foldl_cons, List.foldl_nil]
  split_ifs with h1 <;> dsimp only <;>
    split_ifs with h2 <;> dsimp only <;>
    split_ifs with h3 <;> (try dsimp only) <;>
    refine ⟨_, rfl, fun g => ?_, fun g hg => ?_⟩ <;>
    cases g <;>
    first
      | decide
      | linarith
      | (exfalso; linarith)

/-- Embeds `recordAccelerometer`:
`setGroundSamples((prev) => [...prev.slice(-300), { ax: x, ay: y, az: z }])`.
`Array.prototype.slice(-300)` keeps the last `min(length, 300)` elements,
i.e. drops `length - 300` elements from the front. -/
def recordSample (prev : List GroundSample) (s : GroundSample) : List GroundSample :=
  prev.drop (prev.length - 300) ++ [s]

/-- C7 counterexample: appending to a buffer that already holds 300 samples
yields 301 samples, so the buffer length does exceed 300. -/
theorem c7_buffer_bound_claim_false :
    300 < (recordSample (List.replicate 300 ⟨0, 0, 0⟩) ⟨1, 1, 1⟩).length := by
  simp only [recordSample, List.length_append, List.length_drop, List.length_replicate,
    List.length_singleton]
  norm_num

/-- C7 amended: each append keeps the most recent `min(length, 300)` previous
samples (a suffix of the old buffer, so the oldest are the ones dropped) and
adds the new sample; the resulting length is `min(length, 300) + 1`, hence
never exceeds 301 (not 300 as claimed). -/
theorem c7_buffer_retention (prev : List GroundSample) (s : GroundSample) :
    recordSample prev s = prev.drop (prev.length - 300) ++ [s] ∧
    (recordSample prev s).length = min prev.length 300 + 1 ∧
    (recordSample prev s).length ≤ 301 ∧
    (prev.drop (prev.length - 300)).IsSuffix prev := by
  refine ⟨rfl, ?_, ?_, List.drop_suffix _ _⟩
  · simp only [recordSample, List.length_append, List.length_drop, List.length_singleton]
    omega
  · simp only [recordSample, List.length_append, List.length_drop, List.length_singleton]
    omega

/-- Embeds `const PROXIMITY_THRESHOLD_METERS = 100`. -/
def PROXIMITY_THRESHOLD_METERS : ℚ := 100

/-- Embeds `const PUSH_RISK_THRESHOLD = 0.7`. -/
def PUSH_RISK_THRESHOLD : ℚ := 0.7

/-- Embeds one run of the proximity effect over the `proximityNotified` ref:
first `if (d <= 100 && !notified) { notified = true; Alert.alert(...) }`,
then `if (d > 100 + 20) notified = false`. Returns (new ref value, fired). -/
def proximityStep (notified : Bool) (d : ℚ) : Bool × Bool :=
  (if PROXIMITY_THRESHOLD_METERS + 20 < d then false
   else notified || (if d ≤ PROXIMITY_THRESHOLD_METERS then !notified else false),
   if d ≤ PROXIMITY_THRESHOLD_METERS then !notified else false)

/-- Runs the proximity effect over a trace of distances, counting fires. -/
def proxRun : Bool → List ℚ → Bool × ℕ
  | b, [] => (b, 0)
  | b, d :: ds =>
      let s := proximityStep b d
      let rest := proxRun s.1 ds
      (rest.1, (if s.2 then 1 else 0) + rest.2)

/-- Embeds one run of the push effect over the `pushSentRef` ref:
`readyForPush = isClose && isHighRisk && !pushSent` fires the send and sets the
ref; then `if ((!isClose || p < PUSH_RISK_THRESHOLD - 0.1) && pushSent)
pushSent = false` (the trailing `&& pushSent` guard only skips a no-op write,
so it is dropped here). Returns (new ref value, fired). -/
def pushStep (sent : Bool) (d p : ℚ) : Bool × Bool :=
  (if ¬d ≤ PROXIMITY_THRESHOLD_METERS ∨ p < PUSH_RISK_THRESHOLD - 0.1 then false
   else sent ||
     (if d ≤ PROXIMITY_THRESHOLD_METERS ∧ PUSH_RISK_THRESHOLD ≤ p then !sent else false),
   if d ≤ PROXIMITY_THRESHOLD_METERS ∧ PUSH_RISK_THRESHOLD ≤ p then !sent else false)

/-- Runs the push effect over a trace of (distance, probability) pairs,
counting send attempts. -/
def pushRun : Bool → List (ℚ × ℚ) → Bool × ℕ
  | b, [] => (b, 0)
  | b, q :: qs =>
      let s := pushStep b q.1 q.2
      let rest := pushRun s.1 qs
      (rest.1, (if s.2 then 1 else 0) + rest.2)

theorem proximityStep_latched {d : ℚ} (hd : d ≤ 120) : proximityStep true d = (true, false) := by
  have h2 : ¬(PROXIMITY_THRESHOLD_METERS + 20 < d) := by
    unfold PROXIMITY_THRESHOLD_METERS; push_neg; linarith
  by_cases h1 : d ≤ PROXIMITY_THRESHOLD_METERS <;> simp [proximityStep, h1, h2]

theorem proxRun_latched (es : List ℚ) (hes : ∀ d ∈ es, d ≤ 120) : proxRun true es = (true, 0) := by
  induction es with
  | nil => rfl
  | cons d ds ih =>
      have hstep := proximityStep_latched (hes d (List.mem_cons_self d ds))
      simp [proxRun, hstep, ih fun x hx => hes x (List.mem_cons_of_mem d hx)]

theorem proxRun_sustained (ds : List ℚ) (hds : ∀ d ∈ ds, d ≤ 100) (b : Bool) :
    (proxRun b ds).2 ≤ 1 := by
  cases b with
  | true =>
      rw [proxRun_latched ds fun d hd => le_trans (hds d hd) (by norm_num)]
      norm_num
  | false =>
      cases ds with
      | nil => simp [proxRun]
      | cons d ds =>
          have hd : d ≤ PROXIMITY_THRESHOLD_METERS := by
            unfold PROXIMITY_THRESHOLD_METERS; exact hds d (List.mem_cons_self d ds)
          have hstep : proximityStep false d = (true, true) := by
            have h2 : ¬(PROXIMITY_THRESHOLD_METERS + 20 < d) := by
              unfold PROXIMITY_THRESHOLD_METERS at *; push_neg; linarith
            simp [proximityStep, hd, h2]
          have hrest := proxRun_latched ds fun x hx =>
            le_trans (hds x (List.mem_cons_of_mem d hx)) (by norm_num)
          simp [proxRun, hstep, hrest]

theorem pushStep_latched {d p : ℚ} (hd : d ≤ 100) (hp : 0.6 ≤ p) :
    pushStep true d p = (true, false) := by
  have h2 : ¬(¬d ≤ PROXIMITY_THRESHOLD_METERS ∨ p < PUSH_RISK_THRESHOLD - 0.1) := by
    unfold PROXIMITY_THRESHOLD_METERS PUSH_RISK_THRESHOLD
    push_neg
    exact ⟨hd, by linarith⟩
  unfold pushStep
  rw [if_neg h2]
  by_cases h1 : d ≤ PROXIMITY_THRESHOLD_METERS ∧ PUSH_RISK_THRESHOLD ≤ p <;> simp [h1]

theorem pushRun_latched (qs : List (ℚ × ℚ)) (hqs : ∀ x ∈ qs, x.1 ≤ 100 ∧ 0.6 ≤ x.2) :
    pushRun true qs = (true, 0) := by
  induction qs with
  | nil => rfl
  | cons q rest ih =>
      have hq := hqs q (List.mem_cons_self q rest)
      have hstep := pushStep_latched hq.1 hq.2
      simp [pushRun, hstep, ih fun x hx => hqs x (List.mem_cons_of_mem q hx)]

theorem pushRun_sustained (ps : List (ℚ × ℚ)) (hps : ∀ x ∈ ps, x.1 ≤ 100 ∧ 0.7 ≤ x.2)
    (b : Bool) : (pushRun b ps).2 ≤ 1 := by
  cases b with
  | true =>
      rw [pushRun_latched ps fun x hx => ⟨(hps x hx).1, by linarith [(hps x hx).2]⟩]
      norm_num
  | false =>
      cases ps with
      | nil => simp [pushRun]
      | cons q rest =>
          have hq := hps q (List.mem_cons_self q rest)
          have hcond : q.1 ≤ PROXIMITY_THRESHOLD_METERS ∧ PUSH_RISK_THRESHOLD ≤ q.2 := by
            unfold PROXIMITY_THRESHOLD_METERS PUSH_RISK_THRESHOLD; exact hq
          have h2 : ¬(¬q.1 ≤ PROXIMITY_THRESHOLD_METERS ∨
              q.2 < PUSH_RISK_THRESHOLD - 0.1) := by
            unfold PROXIMITY_THRESHOLD_METERS PUSH_RISK_THRESHOLD
            push_neg
            exact ⟨hq.1, by linarith [hq.2]⟩
          have hstep : pushStep false q.1 q.2 = (true, true) := by
            unfold pushStep
            rw [if_neg h2]
            simp [hcond]
          have hrest := pushRun_latched rest fun x hx =>
            ⟨(hps x (List.mem_cons_of_mem q hx)).1,
             by linarith [(hps x (List.mem_cons_of_mem q hx)).2]⟩
          simp [pushRun, hstep, hrest]

/-- C8: each latch fires exactly when its condition holds while unlatched
(at most one send attempt per arm event); over any trace with distance ≤ 100 m
(and probability ≥ 0.70 for the push latch) each latch fires at most once;
and a latched latch never re-fires while distance stays ≤ 120 m (proximity)
resp. while distance stays ≤ 100 m and probability stays ≥ 0.60 (push). -/
theorem c8_latch_hysteresis (b : Bool) (d' p' : ℚ) (ds es : List ℚ) (ps qs : List (ℚ × ℚ))
    (hds : ∀ d ∈ ds, d ≤ 100) (hes : ∀ d ∈ es, d ≤ 120)
    (hps : ∀ x ∈ ps, x.1 ≤ 100 ∧ 0.7 ≤ x.2) (hqs : ∀ x ∈ qs, x.1 ≤ 100 ∧ 0.6 ≤ x.2) :
    ((proximityStep b d').2 = true ↔ d' ≤ 100 ∧ b = false) ∧
    ((pushStep b d' p').2 = true ↔ (d' ≤ 100 ∧ 0.7 ≤ p') ∧ b = false) ∧
    (proxRun b ds).2 ≤ 1 ∧
    proxRun true es = (true, 0) ∧
    (pushRun b ps).2 ≤ 1 ∧
    pushRun true qs = (true, 0) := by
  refine ⟨?_, ?_, proxRun_sustained ds hds b, proxRun_latched es hes,
    pushRun_sustained ps hps b, pushRun_latched qs hqs⟩
  · by_cases h1 : d' ≤ PROXIMITY_THRESHOLD_METERS <;>
      cases b <;>
      simp_all [proximityStep, PROXIMITY_THRESHOLD_METERS]
  · by_cases h1 : d' ≤ PROXIMITY_THRESHOLD_METERS ∧ PUSH_RISK_THRESHOLD ≤ p' <;>
      cases b <;>
      simp_all [pushStep, PROXIMITY_THRESHOLD_METERS, PUSH_RISK_THRESHOLD]

/-- Witness for C8 at concrete traces: distances [50, 60] from the unlatched
state, and a latched push latch held inside the hysteresis band at (50, 0.65). -/
theorem c8_latch_hysteresis_witness :
    (proxRun false [50, 60]).2 ≤ 1 ∧ pushRun true [(50, 0.65)] = (true, 0) :=
  ⟨(c8_latch_hysteresis false 50 0.8 [50, 60] [110] [(50, 0.8)] [(50, 0.65)]
      (by norm_num) (by norm_num) (by norm_num) (by norm_num)).2.2.1,
   (c8_latch_hysteresis false 50 0.8 [50, 60] [110] [(50, 0.8)] [(50, 0.65)]
      (by norm_num) (by norm_num) (by norm_num) (by norm_num)).2.2.2.2.2⟩

/-- The four numeric fields of `type GlobalPayload` that feed the snapshot
(`do_am_dat`, `do_doc`, `mua_24h`, `do_rung_dat`); `none` models a field that
is absent, not a number, or NaN. -/
structure GlobalPayload where
  do_am_dat : Option ℚ
  do_doc : Option ℚ
  mua_24h : Option ℚ
  do_rung_dat : Option ℚ
  deriving DecidableEq, Repr

/-- Embeds `asNumber`: a usable number passes through, anything else yields
the fallback. -/
def asNumber (value : Option ℚ) (fallback : ℚ) : ℚ := value.getD fallback

/-- Embeds `createSnapshotFromData` (fallback 0 for every field). -/
def createSnapshotFromData (data : GlobalPayload) : SensorSnapshot where
  soilMoisture := asNumber data.do_am_dat 0
  slopeAngle := asNumber data.do_doc 0
  rainfall24h := asNumber data.mua_24h 0
  groundVibration := asNumber data.do_rung_dat 0

/-- Embeds the `globalData` effect:
`setSensorSnapshot((prev) => { const base = createSnapshotFromData(globalData);
return { ...base, rainfall24h: prev.rainfall24h ?? base.rainfall24h }; })`.
`prev.rainfall24h` is a number on every snapshot the app ever builds, so the
`??` always keeps the previous value. -/
def applyGlobalData (prev : SensorSnapshot) (data : GlobalPayload) : SensorSnapshot :=
  let base := createSnapshotFromData data
  { base with rainfall24h := prev.rainfall24h }

/-- Embeds the rainfall fetch update:
`setSensorSnapshot((prev) => ({ ...prev, rainfall24h: rainfallMm }))`. -/
def applyRainfall (prev : SensorSnapshot) (rainfallMm : ℚ) : SensorSnapshot :=
  { prev with rainfall24h := rainfallMm }

/-- C9 counterexample: applying a global payload whose `mua_24h` is 7 over a
previous snapshot with rainfall 5 does not yield the snapshot derived from the
payload — the stale rainfall 5 survives, so not every field comes from the
new data. -/
theorem c9_snapshot_claim_false :
    applyGlobalData ⟨0, 0, 5, 0⟩ ⟨some 1, some 2, some 7, some 3⟩ ≠
      createSnapshotFromData ⟨some 1, some 2, some 7, some 3⟩ := by
  simp [applyGlobalData, createSnapshotFromData, asNumber]

/-- C9 amended: new readings replace the snapshot wholesale as a value (never
field-by-field mutation of a scored snapshot), but the global-payload path
takes only soilMoisture, slopeAngle and groundVibration from the new payload
and retains the previous snapshot's rainfall24h, while the live weather path
replaces exactly rainfall24h and retains the other three fields. -/
theorem c9_snapshot_replacement (prev : SensorSnapshot) (data : GlobalPayload) (r : ℚ) :
    applyGlobalData prev data =
      { soilMoisture := asNumber data.do_am_dat 0
        slopeAngle := asNumber data.do_doc 0
        rainfall24h := prev.rainfall24h
        groundVibration := asNumber data.do_rung_dat 0 } ∧
    applyRainfall prev r =
      { soilMoisture := prev.soilMoisture
        slopeAngle := prev.slopeAngle
        rainfall24h := r
        groundVibration := prev.groundVibration } :=
  ⟨rfl, rfl⟩

end LS
